import Mathlib

/-!
Verification of the async-utils graceful-shutdown coordinator
(`src/open/utils-rs/async-utils/src/lib.rs`).

The coordinator (`HaltHandle`) composes three primitives:
a watch-style cancellation broadcast (`Trigger`/`Tripwire`),
an unbounded mpsc registration channel of `TaskMsg` values,
and a missed-signal-safe one-shot halt notifier.

The coordinator's own logic (`spawn`, `ready`, `halt`, `join`,
`Tripwire::poll`, the error reduction) is embedded directly from the
source.  The three runtime primitives are external library facilities
(not part of this repository's source tree); their state is embedded
from the contracts the specification states for them: a watch channel
whose send delivers the new value to all current and future readers'
next-change observation, an unbounded FIFO channel whose send fails
only when the receiver is gone, and a notifier that stores a permit so
a wakeup fired before the wait began is not lost.
-/

namespace AsyncUtils

/-- Polling outcome of a future, as in `std::task::Poll`. -/
inductive Poll (α : Type) where
  | ready : α → Poll α
  | pending : Poll α
deriving DecidableEq, Repr

/-- Error produced by awaiting a task that ended abnormally (panicked);
its payload is abstracted to a numeric code. -/
structure JoinError where
  code : Nat
deriving DecidableEq, Repr

deriving instance DecidableEq for Except

/-- Handle to a spawned task: the (abstract) time at which the task
completes, and the outcome observed when its handle is awaited. -/
structure JoinHandle where
  time : Nat
  outcome : Except JoinError Unit
deriving DecidableEq, Repr

/-- State of the watch-style single-slot broadcast channel underlying
`Trigger`/`Tripwire`.  Modelled from the spec's contract for this external
primitive: `fireCount` counts broadcast firings, `closed` records that the
sending half was dropped, `receiversDropped` that every receiving half was
dropped. -/
structure WatchChannel where
  fireCount : Nat
  closed : Bool
  receiversDropped : Bool
deriving DecidableEq, Repr

/-- Whether a firing has happened on the channel. -/
def WatchChannel.fired (w : WatchChannel) : Bool := w.fireCount != 0

/-- Fresh watch channel as created by `watch::channel(())`. -/
def WatchChannel.new : WatchChannel :=
  { fireCount := 0, closed := false, receiversDropped := false }

/-- Modelled from the spec: `watch::Sender::broadcast` stores a new value
(a firing) that all current and future readers observe; it errors exactly
when every receiver was dropped. -/
def watchBroadcast (w : WatchChannel) : Except Unit WatchChannel :=
  if w.receiversDropped then .error () else .ok { w with fireCount := w.fireCount + 1 }

/-- Function `Trigger::cancel` (src lines 160-162): fires the broadcast and
swallows the send error; consuming `self` then drops the sending half,
closing the channel. -/
def Trigger.cancel (w : WatchChannel) : WatchChannel :=
  match watchBroadcast w with
  | .ok w2 => { w2 with closed := true }
  | .error _ => { w with closed := true }

/-- Dropping a `Trigger` without calling `cancel` closes the channel
without a firing. -/
def Trigger.drop (w : WatchChannel) : WatchChannel := { w with closed := true }

/-- Modelled from the spec: polling the receiving half's next-item future.
Ready with a value once a firing is observable; ready with `none` at end of
stream (sending half dropped); pending otherwise. -/
def watchNextPoll (w : WatchChannel) : Poll (Option Unit) :=
  if w.fired then .ready (some ()) else if w.closed then .ready none else .pending

/-- Cloning a `Tripwire` clones the receiving half; the clone observes the
same shared channel state. -/
def Tripwire.clone (w : WatchChannel) : WatchChannel := w

/-- Function `Tripwire::poll` (src lines 183-187): polls the receiver
stream's next item and maps any completion — a received value or end of
stream — to `()`. -/
def Tripwire.poll (w : WatchChannel) : Poll Unit :=
  match watchNextPoll w with
  | .ready _ => .ready ()
  | .pending => .pending

/-- Type `TaskMsg` (src lines 100-103): a registration event, either a
spawned task's join handle or the ready marker. -/
inductive TaskMsg where
  | task : JoinHandle → TaskMsg
  | ready : TaskMsg
deriving DecidableEq, Repr

/-- Type `HaltError` (src lines 116-121): error type returned by
`HaltHandle::join`. -/
inductive HaltError where
  | timeout : HaltError
  | join : JoinError → HaltError
deriving DecidableEq, Repr

/-- State of a `HaltHandle` together with its channels.  `haltSlot` and
`tasksSlot` are the take-once `Option` slots held behind mutexes in the
source (their payloads — the trigger, the receiver and the notifier — are
the shared state recorded in the other fields); `tasksQueue` is the
buffered content of the unbounded registration channel; `notifyPermit` is
the stored wakeup permit of the halt notifier (modelled from the spec:
missed-signal-safe one-shot wakeup); `rxDropped` records that the
registration receiver was dropped. -/
structure HaltHandleState where
  watch : WatchChannel
  haltSlot : Option Unit
  notifyPermit : Bool
  tasksQueue : List TaskMsg
  tasksSlot : Option Unit
  rxDropped : Bool
  ctrlcTaskSpawned : Bool
deriving DecidableEq, Repr

/-- Function `HaltHandle::new` (src lines 224-242). -/
def HaltHandle.new : HaltHandleState :=
  { watch := WatchChannel.new
    haltSlot := some ()
    notifyPermit := false
    tasksQueue := []
    tasksSlot := some ()
    rxDropped := false
    ctrlcTaskSpawned := false }

/-- Modelled from the spec: unbounded mpsc send — appends in FIFO order,
never blocks, errors exactly when the receiver was dropped. -/
def mpscSend (dropped : Bool) (q : List TaskMsg) (m : TaskMsg) :
    Except Unit (List TaskMsg) :=
  if dropped then .error () else .ok (q ++ [m])

/-- Function `HaltHandle::spawn` (src lines 254-267): starts the task under
the external scheduler and sends its join handle on the registration
channel, ignoring a send error. -/
def HaltHandle.spawn (s : HaltHandleState) (h : JoinHandle) : HaltHandleState :=
  match mpscSend s.rxDropped s.tasksQueue (.task h) with
  | .ok q => { s with tasksQueue := q }
  | .error _ => s

/-- Function `HaltHandle::ready` (src lines 270-275): sends the ready
marker, ignoring a send error. -/
def HaltHandle.ready (s : HaltHandleState) : HaltHandleState :=
  match mpscSend s.rxDropped s.tasksQueue .ready with
  | .ok q => { s with tasksQueue := q }
  | .error _ => s

/-- Modelled from the spec: `Notify::notify` stores a permit when no waiter
is present, so a later wait returns immediately. -/
def Notify.notify (_permit : Bool) : Bool := true

/-- Modelled from the spec: polling `Notify::notified()` — ready exactly
when a permit is stored. -/
def Notify.notifiedPoll (permit : Bool) : Poll Unit :=
  if permit then .ready () else .pending

/-- Function `HaltHandle::halt` (src lines 278-288): takes the `Halt`
record if present, fires the trigger and notifies the joiner; a no-op when
the record was already taken. -/
def HaltHandle.halt (s : HaltHandleState) : HaltHandleState :=
  match s.haltSlot with
  | some _ =>
    { s with
      haltSlot := none
      watch := Trigger.cancel s.watch
      notifyPermit := Notify.notify s.notifyPermit }
  | none => s

/-- Registry drain of `join` (src lines 344-350): collect task handles
until the ready marker; `none` when the buffered messages run out before a
ready marker (the loop would keep awaiting the channel).  Returns the
collected handles in send order and the remaining queue. -/
def drainUntilReady : List TaskMsg → Option (List JoinHandle × List TaskMsg)
  | [] => none
  | .task h :: rest =>
    match drainUntilReady rest with
    | some (hs, rem) => some (h :: hs, rem)
    | none => none
  | .ready :: rest => some ([], rest)

/-- Completion time of `future::join_all` over the collected handles: all
handles are awaited concurrently, so it completes at the latest completion
time. -/
def joinAllTime (hs : List JoinHandle) : Nat :=
  hs.foldr (fun h acc => max h.time acc) 0

/-- Rust `Result::and`: keep the receiver when it is an error, otherwise
the argument. -/
def resultAnd (a b : Except JoinError Unit) : Except JoinError Unit :=
  match a with
  | .ok _ => b
  | .error e => .error e

/-- Error reduction of `join` (src lines 364-367): fold the outcomes with
`Result::and` starting from `Ok(())`, then wrap the surviving error in
`HaltError::Join`. -/
def reduceResults (rs : List (Except JoinError Unit)) : Except HaltError Unit :=
  match rs.foldl resultAnd (.ok ()) with
  | .ok _ => .ok ()
  | .error e => .error (.join e)

/-- Outcome of one `join` call, with the suspension points and the
multiple-join panic made explicit. -/
inductive JoinResult where
  | panicked
  | pendingHalt
  | pendingReady
  | ok
  | err : HaltError → JoinResult
deriving DecidableEq, Repr

/-- Reduction step of `join` (src lines 364-367) expressed on the final
result: success when the fold survives, otherwise the surviving join
error. -/
def finishResult (hs : List JoinHandle) : JoinResult :=
  match reduceResults (hs.map JoinHandle.outcome) with
  | .ok _ => JoinResult.ok
  | .error e => JoinResult.err e

/-- Function `HaltHandle::join` (src lines 329-368) as a state transformer:
take the `Tasks` slot (panicking if already taken), await the halt
notifier, drain the registration channel up to the ready marker, await the
collected handles bounded by the optional timeout, and reduce the
outcomes.  A suspension with no further events is reported as the
corresponding pending result. -/
def HaltHandle.join (s : HaltHandleState) (timeout : Option Nat) :
    JoinResult × HaltHandleState :=
  match s.tasksSlot with
  | none => (.panicked, s)
  | some _ =>
    let s1 := { s with tasksSlot := none }
    match Notify.notifiedPoll s1.notifyPermit with
    | .pending => (.pendingHalt, s1)
    | .ready _ =>
      let s2 := { s1 with notifyPermit := false }
      match drainUntilReady s2.tasksQueue with
      | none => (.pendingReady, { s2 with tasksQueue := [] })
      | some (hs, rest) =>
        let s3 := { s2 with tasksQueue := rest }
        match timeout with
        | some d =>
          if joinAllTime hs ≤ d then (finishResult hs, s3) else (.err .timeout, s3)
        | none => (finishResult hs, s3)

/-- Caller-side events on a `HaltHandle` (join is modelled separately,
since it is the single consumer). -/
inductive Event where
  | spawn : JoinHandle → Event
  | ready : Event
  | halt : Event
deriving DecidableEq, Repr

/-- Whether an event is a halt call. -/
def Event.isHalt : Event → Bool
  | .halt => true
  | _ => false

/-- Application of one event to the handle state. -/
def Event.step (s : HaltHandleState) : Event → HaltHandleState
  | .spawn h => HaltHandle.spawn s h
  | .ready => HaltHandle.ready s
  | .halt => HaltHandle.halt s

/-- Run a sequence of caller events from a starting state. -/
def runEvents (s : HaltHandleState) (evs : List Event) : HaltHandleState :=
  evs.foldl Event.step s

/-- Registration messages produced by a sequence of events, in send
order. -/
def msgsOf : List Event → List TaskMsg
  | [] => []
  | .spawn h :: rest => .task h :: msgsOf rest
  | .ready :: rest => .ready :: msgsOf rest
  | .halt :: rest => msgsOf rest

/-- Handles of the spawn events that precede the first ready event, in
program order. -/
def handlesBeforeReady : List Event → List JoinHandle
  | [] => []
  | .spawn h :: rest => h :: handlesBeforeReady rest
  | .ready :: _ => []
  | .halt :: rest => handlesBeforeReady rest

/-- Closed form of the state reached from a fresh handle by a sequence of
caller events. -/
def stateAfter (evs : List Event) : HaltHandleState :=
  { watch :=
      { fireCount := if Event.halt ∈ evs then 1 else 0
        closed := decide (Event.halt ∈ evs)
        receiversDropped := false }
    haltSlot := if Event.halt ∈ evs then none else some ()
    notifyPermit := decide (Event.halt ∈ evs)
    tasksQueue := msgsOf evs
    tasksSlot := some ()
    rxDropped := false
    ctrlcTaskSpawned := false }

/-- Running an extended event sequence applies the last event to the state
reached by the preceding ones. -/
theorem runEvents_append (s : HaltHandleState) (evs : List Event) (e : Event) :
    runEvents s (evs ++ [e]) = Event.step (runEvents s evs) e := by
  simp [runEvents, List.foldl_append]

/-- Messages of a concatenation of event sequences. -/
theorem msgsOf_append (a b : List Event) :
    msgsOf (a ++ b) = msgsOf a ++ msgsOf b := by
  induction a with
  | nil => rfl
  | cons e rest ih => cases e <;> simp [msgsOf, ih]

/-- Halt events produce no registration messages, so erasing them leaves
the message sequence unchanged. -/
theorem msgsOf_filter_halt (evs : List Event) :
    msgsOf (evs.filter (fun e => !e.isHalt)) = msgsOf evs := by
  induction evs with
  | nil => rfl
  | cons e rest ih =>
    cases e with
    | spawn h =>
      rw [List.filter_cons_of_pos (by rfl)]
      simp [msgsOf, ih]
    | ready =>
      rw [List.filter_cons_of_pos (by rfl)]
      simp [msgsOf, ih]
    | halt =>
      rw [List.filter_cons_of_neg (by simp [Event.isHalt])]
      simpa [msgsOf] using ih

/-- Characterization of the state reached from a fresh handle by any
sequence of spawn/ready/halt events. -/
theorem runEvents_new_eq (evs : List Event) :
    runEvents HaltHandle.new evs = stateAfter evs := by
  induction evs using List.reverseRecOn with
  | nil => rfl
  | append_singleton evs e ih =>
    rw [runEvents_append, ih]
    cases e with
    | spawn h =>
      by_cases hh : Event.halt ∈ evs <;>
        simp [stateAfter, Event.step, HaltHandle.spawn, mpscSend,
          msgsOf_append, msgsOf, hh, List.mem_append]
    | ready =>
      by_cases hh : Event.halt ∈ evs <;>
        simp [stateAfter, Event.step, HaltHandle.ready, mpscSend,
          msgsOf_append, msgsOf, hh, List.mem_append]
    | halt =>
      by_cases hh : Event.halt ∈ evs
      · simp [stateAfter, Event.step, HaltHandle.halt, hh, List.mem_append,
          msgsOf_append, msgsOf]
      · simp [stateAfter, Event.step, HaltHandle.halt, hh, List.mem_append,
          msgsOf_append, msgsOf, Trigger.cancel, watchBroadcast, Notify.notify,
          WatchChannel.new]

/-- Draining the messages of an event sequence that contains a ready event
collects exactly the handles spawned before the first ready event, in send
order. -/
theorem drain_msgsOf (evs : List Event) (h : Event.ready ∈ evs) :
    ∃ rest, drainUntilReady (msgsOf evs) = some (handlesBeforeReady evs, rest) := by
  induction evs with
  | nil => cases h
  | cons e tail ih =>
    cases e with
    | spawn hd =>
      have hr : Event.ready ∈ tail := by simpa using h
      obtain ⟨rest, hrest⟩ := ih hr
      exact ⟨rest, by simp [msgsOf, drainUntilReady, handlesBeforeReady, hrest]⟩
    | ready =>
      exact ⟨msgsOf tail, by simp [msgsOf, drainUntilReady, handlesBeforeReady]⟩
    | halt =>
      have hr : Event.ready ∈ tail := by simpa using h
      obtain ⟨rest, hrest⟩ := ih hr
      exact ⟨rest, by simpa [msgsOf, handlesBeforeReady] using hrest⟩

/-- An error accumulator absorbs the rest of the fold. -/
theorem foldl_resultAnd_error (e : JoinError) (rs : List (Except JoinError Unit)) :
    rs.foldl resultAnd (.error e) = .error e := by
  induction rs with
  | nil => rfl
  | cons r tail ih => simpa [List.foldl, resultAnd] using ih

/-- First abnormal outcome in a list of task outcomes, in order. -/
def firstError : List (Except JoinError Unit) → Option JoinError
  | [] => none
  | .ok _ :: rest => firstError rest
  | .error e :: _ => some e

/-- Closed form of the `Result::and` fold: it yields the first error if
any, otherwise success. -/
theorem foldl_resultAnd_ok (rs : List (Except JoinError Unit)) :
    rs.foldl resultAnd (.ok ()) =
      (match firstError rs with
       | none => Except.ok ()
       | some e => Except.error e) := by
  induction rs with
  | nil => rfl
  | cons r tail ih =>
    cases r with
    | ok u => cases u; simpa [List.foldl, resultAnd, firstError] using ih
    | error e => simp [List.foldl, resultAnd, firstError, foldl_resultAnd_error]

/-- A list of outcomes has no first error exactly when every outcome is a
success. -/
theorem firstError_eq_none_iff (rs : List (Except JoinError Unit)) :
    firstError rs = none ↔ ∀ r ∈ rs, r = .ok () := by
  induction rs with
  | nil => simp [firstError]
  | cons r tail ih =>
    cases r with
    | ok u => cases u; simp [firstError, ih]
    | error e => simp [firstError]

/-- Closed form of the reduction step: the first abnormal outcome in
collection order decides the result. -/
theorem finishResult_spec (hs : List JoinHandle) :
    finishResult hs =
      (match firstError (hs.map JoinHandle.outcome) with
       | none => JoinResult.ok
       | some e => JoinResult.err (.join e)) := by
  unfold finishResult reduceResults
  rw [foldl_resultAnd_ok]
  rcases firstError (hs.map JoinHandle.outcome) with _ | e <;> simp

/-- The reduction step never reports a timeout. -/
theorem finishResult_ne_timeout (hs : List JoinHandle) :
    finishResult hs ≠ JoinResult.err .timeout := by
  rw [finishResult_spec]
  rcases firstError (hs.map JoinHandle.outcome) with _ | e <;> simp

/-- The reduction step never reports a suspension or a panic. -/
theorem finishResult_ne_pending (hs : List JoinHandle) :
    finishResult hs ≠ JoinResult.pendingHalt
    ∧ finishResult hs ≠ JoinResult.pendingReady
    ∧ finishResult hs ≠ JoinResult.panicked := by
  rw [finishResult_spec]
  rcases firstError (hs.map JoinHandle.outcome) with _ | e <;> simp

/-- Equation for `join` when the `Tasks` slot was already taken. -/
theorem join_slot_none (s : HaltHandleState) (d : Option Nat)
    (h : s.tasksSlot = none) :
    HaltHandle.join s d = (.panicked, s) := by
  simp [HaltHandle.join, h]

/-- Equation for `join` called before any halt: it takes the slot and then
suspends on the halt notifier. -/
theorem join_pendingHalt (s : HaltHandleState) (d : Option Nat)
    (h1 : s.tasksSlot = some ()) (h2 : s.notifyPermit = false) :
    HaltHandle.join s d = (.pendingHalt, { s with tasksSlot := none }) := by
  simp [HaltHandle.join, h1, h2, Notify.notifiedPoll]

/-- Equation for `join` when halt has fired but the buffered registration
messages hold no ready marker yet: it suspends on the registry drain. -/
theorem join_pendingReady (s : HaltHandleState) (d : Option Nat)
    (h1 : s.tasksSlot = some ()) (h2 : s.notifyPermit = true)
    (h3 : drainUntilReady s.tasksQueue = none) :
    HaltHandle.join s d =
      (.pendingReady,
        { s with tasksSlot := none, notifyPermit := false, tasksQueue := [] }) := by
  simp [HaltHandle.join, h1, h2, h3, Notify.notifiedPoll]

/-- Equation for `join` without a deadline when it runs to completion. -/
theorem join_run_none (s : HaltHandleState) (hs : List JoinHandle)
    (rest : List TaskMsg)
    (h1 : s.tasksSlot = some ()) (h2 : s.notifyPermit = true)
    (h3 : drainUntilReady s.tasksQueue = some (hs, rest)) :
    HaltHandle.join s none =
      (finishResult hs,
        { s with tasksSlot := none, notifyPermit := false, tasksQueue := rest }) := by
  simp [HaltHandle.join, h1, h2, h3, Notify.notifiedPoll]

/-- Equation for `join` with a deadline the collected tasks meet. -/
theorem join_run_within (s : HaltHandleState) (dd : Nat) (hs : List JoinHandle)
    (rest : List TaskMsg)
    (h1 : s.tasksSlot = some ()) (h2 : s.notifyPermit = true)
    (h3 : drainUntilReady s.tasksQueue = some (hs, rest))
    (h4 : joinAllTime hs ≤ dd) :
    HaltHandle.join s (some dd) =
      (finishResult hs,
        { s with tasksSlot := none, notifyPermit := false, tasksQueue := rest }) := by
  simp [HaltHandle.join, h1, h2, h3, h4, Notify.notifiedPoll]

/-- Equation for `join` with a deadline the collected tasks exceed. -/
theorem join_run_timeout (s : HaltHandleState) (dd : Nat) (hs : List JoinHandle)
    (rest : List TaskMsg)
    (h1 : s.tasksSlot = some ()) (h2 : s.notifyPermit = true)
    (h3 : drainUntilReady s.tasksQueue = some (hs, rest))
    (h4 : dd < joinAllTime hs) :
    HaltHandle.join s (some dd) =
      (.err .timeout,
        { s with tasksSlot := none, notifyPermit := false, tasksQueue := rest }) := by
  have h5 : ¬ joinAllTime hs ≤ dd := Nat.not_le.mpr h4
  simp [HaltHandle.join, h1, h2, h3, h5, Notify.notifiedPoll]

/-- Inversion: a timeout result implies the halt notification and the
ready marker had both been received, and a deadline had been supplied. -/
theorem join_timeout_inv (s : HaltHandleState) (d : Option Nat)
    (h : (HaltHandle.join s d).1 = .err .timeout) :
    s.notifyPermit = true ∧ (drainUntilReady s.tasksQueue).isSome ∧ d.isSome := by
  rcases hts : s.tasksSlot with _ | u
  · rw [join_slot_none s d hts] at h
    simp at h
  · cases u
    rcases hp : s.notifyPermit with _ | _
    · rw [join_pendingHalt s d hts hp] at h
      simp at h
    · rcases hdr : drainUntilReady s.tasksQueue with _ | ⟨hs, rest⟩
      · rw [join_pendingReady s d hts hp hdr] at h
        simp at h
      · rcases d with _ | dd
        · rw [join_run_none s hs rest hts hp hdr] at h
          exact absurd h (finishResult_ne_timeout hs)
        · exact ⟨rfl, by simp [hdr], rfl⟩

/-- A halt call on a handle whose `Halt` record is already taken changes
nothing. -/
theorem halt_slot_none_id (s : HaltHandleState) (h : s.haltSlot = none) :
    HaltHandle.halt s = s := by
  simp [HaltHandle.halt, h]

/-- Repeating a halt call changes nothing. -/
theorem halt_idem (s : HaltHandleState) :
    HaltHandle.halt (HaltHandle.halt s) = HaltHandle.halt s := by
  rcases hh : s.haltSlot with _ | u
  · rw [halt_slot_none_id s hh, halt_slot_none_id s hh]
  · have hn : (HaltHandle.halt s).haltSlot = none := by simp [HaltHandle.halt, hh]
    exact halt_slot_none_id _ hn

/-- Any `join` call on a handle whose `Tasks` slot is present takes the
slot and does not panic, whatever branch it then follows. -/
theorem join_takes_slot (s : HaltHandleState) (d : Option Nat)
    (h : s.tasksSlot = some ()) :
    (HaltHandle.join s d).1 ≠ JoinResult.panicked
    ∧ (HaltHandle.join s d).2.tasksSlot = none := by
  rcases hp : s.notifyPermit with _ | _
  · rw [join_pendingHalt s d h hp]
    simp
  · rcases hdr : drainUntilReady s.tasksQueue with _ | ⟨hs, rest⟩
    · rw [join_pendingReady s d h hp hdr]
      simp
    · rcases d with _ | dd
      · rw [join_run_none s hs rest h hp hdr]
        exact ⟨(finishResult_ne_pending hs).2.2, by simp⟩
      · by_cases hle : joinAllTime hs ≤ dd
        · rw [join_run_within s dd hs rest h hp hdr hle]
          exact ⟨(finishResult_ne_pending hs).2.2, by simp⟩
        · rw [join_run_timeout s dd hs rest h hp hdr (Nat.not_le.mp hle)]
          simp

/-- Sample task handles used as concrete inputs. -/
def demoHandleA : JoinHandle := { time := 1, outcome := .ok () }

/-- Sample task handle that panics with code 7. -/
def demoHandleB : JoinHandle := { time := 2, outcome := .error ⟨7⟩ }

/-- Sample task handle spawned after the ready marker. -/
def demoHandleC : JoinHandle := { time := 3, outcome := .ok () }

/-- Sample event sequence with a halt call interleaved before the spawns
and a spawn after the ready marker. -/
def demoEvents : List Event :=
  [.halt, .spawn demoHandleA, .spawn demoHandleB, .ready, .spawn demoHandleC]

/-- Sample event sequence with spawns and a ready call but no halt. -/
def demoNoHalt : List Event := [.spawn demoHandleA, .ready]

/-- C1: for every sequence of spawn and ready calls on one `HaltHandle`,
the registry drain of `join` collects exactly the task handles registered
before the ready marker, in send order, stopping at the marker; and the
registration queue — hence the collected set — is unchanged by erasing the
halt calls from the sequence, so no relative timing of halt loses a
collected task. -/
theorem spec_C1 (evs : List Event) (h : Event.ready ∈ evs) :
    (drainUntilReady (runEvents HaltHandle.new evs).tasksQueue).map Prod.fst
      = some (handlesBeforeReady evs)
    ∧ (runEvents HaltHandle.new evs).tasksQueue
      = (runEvents HaltHandle.new (evs.filter (fun e => !e.isHalt))).tasksQueue := by
  constructor
  · obtain ⟨rest, hrest⟩ := drain_msgsOf evs h
    rw [runEvents_new_eq]
    simp [stateAfter, hrest]
  · rw [runEvents_new_eq, runEvents_new_eq]
    simp [stateAfter, msgsOf_filter_halt]

/-- Witness for C1 on a concrete event sequence. -/
theorem spec_C1_witness :
    (drainUntilReady (runEvents HaltHandle.new demoEvents).tasksQueue).map Prod.fst
      = some (handlesBeforeReady demoEvents)
    ∧ (runEvents HaltHandle.new demoEvents).tasksQueue
      = (runEvents HaltHandle.new (demoEvents.filter (fun e => !e.isHalt))).tasksQueue :=
  spec_C1 demoEvents (by decide)

/-- C2: after any sequence of spawn calls and one ready call but no halt,
`join` suspends on the halt notifier (it never returns based on ready
alone); and when a halt occurred before `join` was called, the wait on the
halt notifier is immediately ready — the missed signal is not lost — so
`join` does not suspend there. -/
theorem spec_C2 (evs : List Event) (d : Option Nat) :
    (Event.halt ∉ evs →
      (HaltHandle.join (runEvents HaltHandle.new evs) d).1 = JoinResult.pendingHalt)
    ∧ (Event.halt ∈ evs →
      Notify.notifiedPoll (runEvents HaltHandle.new evs).notifyPermit = .ready ()
      ∧ (HaltHandle.join (runEvents HaltHandle.new evs) d).1
          ≠ JoinResult.pendingHalt) := by
  rw [runEvents_new_eq]
  constructor
  · intro h
    have h1 : (stateAfter evs).tasksSlot = some () := by simp [stateAfter]
    have h2 : (stateAfter evs).notifyPermit = false := by simp [stateAfter, h]
    rw [join_pendingHalt _ d h1 h2]
  · intro h
    have h1 : (stateAfter evs).tasksSlot = some () := by simp [stateAfter]
    have h2 : (stateAfter evs).notifyPermit = true := by simp [stateAfter, h]
    refine ⟨by rw [h2]; rfl, ?_⟩
    rcases hdr : drainUntilReady (stateAfter evs).tasksQueue with _ | ⟨hs, rest⟩
    · rw [join_pendingReady _ d h1 h2 hdr]
      simp
    · rcases d with _ | dd
      · rw [join_run_none _ hs rest h1 h2 hdr]
        exact (finishResult_ne_pending hs).1
      · by_cases hle : joinAllTime hs ≤ dd
        · rw [join_run_within _ dd hs rest h1 h2 hdr hle]
          exact (finishResult_ne_pending hs).1
        · rw [join_run_timeout _ dd hs rest h1 h2 hdr (Nat.not_le.mp hle)]
          simp

/-- Witness for C2 on concrete event sequences with and without a halt. -/
theorem spec_C2_witness :
    (HaltHandle.join (runEvents HaltHandle.new demoNoHalt) none).1
      = JoinResult.pendingHalt
    ∧ (Notify.notifiedPoll (runEvents HaltHandle.new demoEvents).notifyPermit
        = .ready ()
      ∧ (HaltHandle.join (runEvents HaltHandle.new demoEvents) none).1
          ≠ JoinResult.pendingHalt) :=
  ⟨(spec_C2 demoNoHalt none).1 (by decide), (spec_C2 demoEvents none).2 (by decide)⟩

/-- C3: `join` is single-use — the first call on a handle whose slot is
present does not panic and leaves the slot empty, and a second call on the
resulting state panics. -/
theorem spec_C3 (s : HaltHandleState) (d d2 : Option Nat)
    (h : s.tasksSlot = some ()) :
    (HaltHandle.join s d).1 ≠ JoinResult.panicked
    ∧ (HaltHandle.join s d).2.tasksSlot = none
    ∧ (HaltHandle.join (HaltHandle.join s d).2 d2).1 = JoinResult.panicked := by
  obtain ⟨hne, hnone⟩ := join_takes_slot s d h
  refine ⟨hne, hnone, ?_⟩
  rw [join_slot_none _ d2 hnone]

/-- Witness for C3 on a fresh handle. -/
theorem spec_C3_witness :
    (HaltHandle.join HaltHandle.new none).1 ≠ JoinResult.panicked
    ∧ (HaltHandle.join HaltHandle.new none).2.tasksSlot = none
    ∧ (HaltHandle.join (HaltHandle.join HaltHandle.new none).2 none).1
        = JoinResult.panicked :=
  spec_C3 HaltHandle.new none none rfl

/-- C4: `halt` is observably idempotent — the first call on a live handle
fires the trigger once and wakes the halt notifier, any call on a handle
whose record was taken is an identity, repeating `halt` changes nothing,
and along every caller event sequence the trigger fires at most once. -/
theorem spec_C4 (s : HaltHandleState) (evs : List Event) :
    HaltHandle.halt (HaltHandle.halt s) = HaltHandle.halt s
    ∧ (s.haltSlot = some () → s.watch.receiversDropped = false →
        (HaltHandle.halt s).watch.fireCount = s.watch.fireCount + 1
        ∧ (HaltHandle.halt s).notifyPermit = true
        ∧ (HaltHandle.halt s).haltSlot = none)
    ∧ (s.haltSlot = none → HaltHandle.halt s = s)
    ∧ (runEvents HaltHandle.new evs).watch.fireCount ≤ 1 := by
  refine ⟨halt_idem s, ?_, halt_slot_none_id s, ?_⟩
  · intro h1 h2
    simp [HaltHandle.halt, h1, Trigger.cancel, watchBroadcast, h2, Notify.notify]
  · rw [runEvents_new_eq]
    by_cases hh : Event.halt ∈ evs <;> simp [stateAfter, hh]

/-- Witness for C4 on a fresh handle and a concrete event sequence. -/
theorem spec_C4_witness :
    HaltHandle.halt (HaltHandle.halt HaltHandle.new) = HaltHandle.halt HaltHandle.new
    ∧ ((HaltHandle.halt HaltHandle.new).watch.fireCount
        = HaltHandle.new.watch.fireCount + 1
      ∧ (HaltHandle.halt HaltHandle.new).notifyPermit = true
      ∧ (HaltHandle.halt HaltHandle.new).haltSlot = none)
    ∧ (runEvents HaltHandle.new demoEvents).watch.fireCount ≤ 1 :=
  ⟨(spec_C4 HaltHandle.new demoEvents).1,
   (spec_C4 HaltHandle.new demoEvents).2.1 rfl rfl,
   (spec_C4 HaltHandle.new demoEvents).2.2.2⟩

/-- C5: the reduction of the collected task outcomes returns success
exactly when every collected task completed without panicking, and
otherwise returns the first failing task's error in collection order,
discarding the later errors. -/
theorem spec_C5 (rs : List (Except JoinError Unit)) :
    (reduceResults rs = .ok () ↔ ∀ r ∈ rs, r = .ok ())
    ∧ (∀ e, firstError rs = some e → reduceResults rs = .error (.join e)) := by
  have hred : reduceResults rs =
      (match firstError rs with
       | none => Except.ok ()
       | some e => Except.error (.join e)) := by
    unfold reduceResults
    rw [foldl_resultAnd_ok]
    rcases firstError rs with _ | e <;> simp
  constructor
  · rw [hred, ← firstError_eq_none_iff]
    rcases firstError rs with _ | e <;> simp
  · intro e he
    rw [hred, he]

/-- Sample outcome list with two failing tasks. -/
def demoResults : List (Except JoinError Unit) :=
  [.ok (), .error ⟨7⟩, .error ⟨9⟩]

/-- Witness for C5 on a concrete outcome list: the first of the two
errors is kept. -/
theorem spec_C5_witness :
    (reduceResults demoResults = .ok () ↔ ∀ r ∈ demoResults, r = .ok ())
    ∧ reduceResults demoResults = .error (.join ⟨7⟩) :=
  ⟨(spec_C5 demoResults).1, (spec_C5 demoResults).2 ⟨7⟩ (by decide)⟩

/-- C6: when the collected tasks do not all complete within a supplied
deadline, `join` returns the timeout error — not success and not a
suspension — and leaves the cancellation channel and `Halt` record
untouched: the still-running tasks are not cancelled by the
coordinator. -/
theorem spec_C6 (s : HaltHandleState) (dd : Nat) (hs : List JoinHandle)
    (rest : List TaskMsg)
    (h1 : s.tasksSlot = some ()) (h2 : s.notifyPermit = true)
    (h3 : drainUntilReady s.tasksQueue = some (hs, rest))
    (h4 : dd < joinAllTime hs) :
    (HaltHandle.join s (some dd)).1 = .err .timeout
    ∧ (HaltHandle.join s (some dd)).2.watch = s.watch
    ∧ (HaltHandle.join s (some dd)).2.haltSlot = s.haltSlot := by
  rw [join_run_timeout s dd hs rest h1 h2 h3 h4]
  simp

/-- Sample handle state ready to be joined: halt already fired, one slow
task registered, ready marker sent. -/
def demoTimeoutState : HaltHandleState :=
  { watch := { fireCount := 1, closed := true, receiversDropped := false }
    haltSlot := none
    notifyPermit := true
    tasksQueue := [.task { time := 100, outcome := .ok () }, .ready]
    tasksSlot := some ()
    rxDropped := false
    ctrlcTaskSpawned := false }

/-- Witness for C6: a task completing at time 100 against a deadline of
5. -/
theorem spec_C6_witness :
    (HaltHandle.join demoTimeoutState (some 5)).1 = .err .timeout
    ∧ (HaltHandle.join demoTimeoutState (some 5)).2.watch = demoTimeoutState.watch
    ∧ (HaltHandle.join demoTimeoutState (some 5)).2.haltSlot
        = demoTimeoutState.haltSlot :=
  spec_C6 demoTimeoutState 5 [{ time := 100, outcome := .ok () }] [] rfl rfl
    (by decide) (by decide)

/-- C7: a `Tripwire` polled as a future is pending before its trigger
fires, resolves once polled after the firing, and any clone — including
one taken after `cancel` already ran — observes the same single firing
(the cancel fires the channel exactly once more) and resolves rather than
hanging. -/
theorem spec_C7 (w : WatchChannel) (hrecv : w.receiversDropped = false) :
    (w.fireCount = 0 → w.closed = false → Tripwire.poll w = .pending)
    ∧ Tripwire.poll (Trigger.cancel w) = .ready ()
    ∧ Tripwire.poll (Tripwire.clone (Trigger.cancel w)) = .ready ()
    ∧ (Trigger.cancel w).fireCount = w.fireCount + 1 := by
  refine ⟨?_, ?_, ?_, ?_⟩
  · intro h1 h2
    simp [Tripwire.poll, watchNextPoll, WatchChannel.fired, h1, h2]
  · simp [Tripwire.poll, watchNextPoll, WatchChannel.fired, Trigger.cancel,
      watchBroadcast, hrecv]
  · simp [Tripwire.poll, Tripwire.clone, watchNextPoll, WatchChannel.fired,
      Trigger.cancel, watchBroadcast, hrecv]
  · simp [Trigger.cancel, watchBroadcast, hrecv]

/-- Witness for C7 on a fresh channel. -/
theorem spec_C7_witness :
    Tripwire.poll WatchChannel.new = .pending
    ∧ Tripwire.poll (Trigger.cancel WatchChannel.new) = .ready ()
    ∧ Tripwire.poll (Tripwire.clone (Trigger.cancel WatchChannel.new)) = .ready ()
    ∧ (Trigger.cancel WatchChannel.new).fireCount
        = WatchChannel.new.fireCount + 1 :=
  ⟨(spec_C7 WatchChannel.new rfl).1 rfl rfl,
   (spec_C7 WatchChannel.new rfl).2.1,
   (spec_C7 WatchChannel.new rfl).2.2.1,
   (spec_C7 WatchChannel.new rfl).2.2.2⟩

/-- C8: the deadline bounds only the wait for task completion — before the
halt notification `join` suspends on the notifier whatever the deadline,
before the ready marker it suspends on the registry drain whatever the
deadline, and a timeout result can only arise once the halt notification
and ready marker were both received and a deadline was supplied. -/
theorem spec_C8 (s : HaltHandleState) (d : Option Nat) :
    (s.tasksSlot = some () → s.notifyPermit = false →
      (HaltHandle.join s d).1 = JoinResult.pendingHalt)
    ∧ (s.tasksSlot = some () → s.notifyPermit = true →
      drainUntilReady s.tasksQueue = none →
      (HaltHandle.join s d).1 = JoinResult.pendingReady)
    ∧ ((HaltHandle.join s d).1 = .err .timeout →
      s.notifyPermit = true ∧ (drainUntilReady s.tasksQueue).isSome ∧ d.isSome) := by
  refine ⟨?_, ?_, join_timeout_inv s d⟩
  · intro h1 h2
    rw [join_pendingHalt s d h1 h2]
  · intro h1 h2 h3
    rw [join_pendingReady s d h1 h2 h3]

/-- Sample handle state with halt fired but no ready marker buffered. -/
def demoNoReadyState : HaltHandleState :=
  { demoTimeoutState with tasksQueue := [.task demoHandleA] }

/-- Witness for C8 on concrete states for each of the three parts. -/
theorem spec_C8_witness :
    (HaltHandle.join HaltHandle.new (some 5)).1 = JoinResult.pendingHalt
    ∧ (HaltHandle.join demoNoReadyState (some 5)).1 = JoinResult.pendingReady
    ∧ (demoTimeoutState.notifyPermit = true
      ∧ (drainUntilReady demoTimeoutState.tasksQueue).isSome
      ∧ (some 5 : Option Nat).isSome) :=
  ⟨(spec_C8 HaltHandle.new (some 5)).1 rfl rfl,
   (spec_C8 demoNoReadyState (some 5)).2.1 rfl rfl rfl,
   (spec_C8 demoTimeoutState (some 5)).2.2 (by decide)⟩

/-- C9: `spawn`, `ready` and `Trigger::cancel` never fail observably to
their caller — with the consumer gone the send error is swallowed and the
state is unchanged (for cancel, only the consuming drop of the sending
half remains), and with the consumer present they enqueue or fire as
usual; none of them returns an error. -/
theorem spec_C9 (s : HaltHandleState) (h : JoinHandle) (w : WatchChannel) :
    (s.rxDropped = true → HaltHandle.spawn s h = s ∧ HaltHandle.ready s = s)
    ∧ (s.rxDropped = false →
      (HaltHandle.spawn s h).tasksQueue = s.tasksQueue ++ [.task h]
      ∧ (HaltHandle.ready s).tasksQueue = s.tasksQueue ++ [.ready])
    ∧ (w.receiversDropped = true →
      Trigger.cancel w = { w with closed := true })
    ∧ (w.receiversDropped = false →
      Trigger.cancel w = { w with fireCount := w.fireCount + 1, closed := true }) := by
  refine ⟨?_, ?_, ?_, ?_⟩
  · intro hd
    simp [HaltHandle.spawn, HaltHandle.ready, mpscSend, hd]
  · intro hd
    simp [HaltHandle.spawn, HaltHandle.ready, mpscSend, hd]
  · intro hd
    simp [Trigger.cancel, watchBroadcast, hd]
  · intro hd
    simp [Trigger.cancel, watchBroadcast, hd]

/-- Sample handle state whose registration receiver was dropped. -/
def demoDroppedState : HaltHandleState :=
  { HaltHandle.new with rxDropped := true }

/-- Sample watch channel all of whose receivers were dropped. -/
def demoDroppedWatch : WatchChannel :=
  { fireCount := 0, closed := false, receiversDropped := true }

/-- Witness for C9 with and without the consumers present. -/
theorem spec_C9_witness :
    (HaltHandle.spawn demoDroppedState demoHandleA = demoDroppedState
      ∧ HaltHandle.ready demoDroppedState = demoDroppedState)
    ∧ ((HaltHandle.spawn HaltHandle.new demoHandleA).tasksQueue
        = HaltHandle.new.tasksQueue ++ [.task demoHandleA]
      ∧ (HaltHandle.ready HaltHandle.new).tasksQueue
        = HaltHandle.new.tasksQueue ++ [.ready])
    ∧ Trigger.cancel demoDroppedWatch = { demoDroppedWatch with closed := true }
    ∧ Trigger.cancel WatchChannel.new
        = { WatchChannel.new with
            fireCount := WatchChannel.new.fireCount + 1, closed := true } :=
  ⟨(spec_C9 demoDroppedState demoHandleA demoDroppedWatch).1 rfl,
   (spec_C9 HaltHandle.new demoHandleA WatchChannel.new).2.1 rfl,
   (spec_C9 demoDroppedState demoHandleA demoDroppedWatch).2.2.1 rfl,
   (spec_C9 HaltHandle.new demoHandleA WatchChannel.new).2.2.2 rfl⟩

/-- C10: a trigger dropped without `cancel` still resolves every
associated tripwire on its next poll, because `Tripwire::poll` maps both a
received value and end-of-stream to completion — so a waiter cannot
distinguish an explicit cancellation from the trigger being dropped. -/
theorem spec_C10 (w : WatchChannel) (hrecv : w.receiversDropped = false) :
    Tripwire.poll (Trigger.drop w) = .ready ()
    ∧ watchNextPoll (Trigger.drop { w with fireCount := 0 }) = .ready none
    ∧ watchNextPoll (Trigger.cancel w) = .ready (some ())
    ∧ Tripwire.poll (Trigger.drop { w with fireCount := 0 })
        = Tripwire.poll (Trigger.cancel w) := by
  refine ⟨?_, ?_, ?_, ?_⟩
  · cases hn : w.fireCount <;>
      simp [Tripwire.poll, watchNextPoll, Trigger.drop, WatchChannel.fired, hn]
  · simp [watchNextPoll, Trigger.drop, WatchChannel.fired]
  · simp [watchNextPoll, Trigger.cancel, watchBroadcast, WatchChannel.fired, hrecv]
  · simp [Tripwire.poll, watchNextPoll, Trigger.drop, Trigger.cancel,
      watchBroadcast, WatchChannel.fired, hrecv]

/-- Witness for C10 on a fresh channel. -/
theorem spec_C10_witness :
    Tripwire.poll (Trigger.drop WatchChannel.new) = .ready ()
    ∧ watchNextPoll (Trigger.drop { WatchChannel.new with fireCount := 0 })
        = .ready none
    ∧ watchNextPoll (Trigger.cancel WatchChannel.new) = .ready (some ())
    ∧ Tripwire.poll (Trigger.drop { WatchChannel.new with fireCount := 0 })
        = Tripwire.poll (Trigger.cancel WatchChannel.new) :=
  spec_C10 WatchChannel.new rfl

end AsyncUtils
